import Mathlib

/-!
# Verification of the certidude authentication shim and CA service surface

Shallow embedding of `certidude/auth.py` (authentication backends and the
admin-authorization decorator) together with models of the service components
exercised by `tests/test_cli.py`.  External collaborators (gssapi, the LDAP
server, PAM, the user store) appear as parameters of an `Env` record, exactly
at the call sites where `auth.py` invokes them.
-/

namespace Certidude

/-! ## Python base64 (external library, `base64.b64decode`)

Model of Python 2's `base64.b64decode` / `binascii.a2b_base64`: characters
outside the base64 alphabet are skipped, a `=` occurring after at least two
symbols of the current quad terminates decoding, and leftover bits at the end
of input raise an error ("Incorrect padding", surfaced to callers of
`b64decode` as `TypeError`).  `none` models that raised error. -/

def b64Val (c : Char) : Option Nat :=
  if 'A' ≤ c ∧ c ≤ 'Z' then some (c.toNat - 'A'.toNat)
  else if 'a' ≤ c ∧ c ≤ 'z' then some (c.toNat - 'a'.toNat + 26)
  else if '0' ≤ c ∧ c ≤ '9' then some (c.toNat - '0'.toNat + 52)
  else if c = '+' then some 62
  else if c = '/' then some 63
  else none

def b64Core : List Char → Nat → Nat → List Nat → Option (List Nat)
  | [], _, leftbits, acc => if leftbits = 0 then some acc.reverse else none
  | c :: cs, leftchar, leftbits, acc =>
    if c = '=' then
      if leftbits = 4 ∨ leftbits = 2 then some acc.reverse
      else b64Core cs leftchar leftbits acc
    else
      match b64Val c with
      | none => b64Core cs leftchar leftbits acc
      | some v =>
        let bits := leftbits + 6
        let value := leftchar * 64 + v
        if bits ≥ 8 then
          b64Core cs (value % 2 ^ (bits - 8)) (bits - 8) ((value / 2 ^ (bits - 8)) % 256 :: acc)
        else
          b64Core cs value bits acc

def b64decode (s : String) : Option String :=
  (b64Core s.data 0 0 []).map (fun bs => String.mk (bs.map Char.ofNat))

/-! ## Helpers for Python string operations used by `auth.py` -/

/-- Does the first character list begin the second one? -/
def listBeginsWith : List Char → List Char → Bool
  | [], _ => true
  | _ :: _, [] => false
  | a :: as, b :: bs => a == b && listBeginsWith as bs

/-- Python `s.startswith(pre)`. -/
def strBeginsWith (s pre : String) : Bool :=
  listBeginsWith pre.data s.data

/-- Python `s.endswith(suf)`. -/
def strEndsWith (s suf : String) : Bool :=
  listBeginsWith suf.data.reverse s.data.reverse

/-- Split a character list on a separator character, keeping empty fields. -/
def splitOnChar (sep : Char) : List Char → List (List Char)
  | [] => [[]]
  | c :: cs =>
    match splitOnChar sep cs with
    | r :: rs => if c == sep then [] :: r :: rs else (c :: r) :: rs
    | [] => [[c]]

/-- Python `s.split(sep)` for a one-character separator. -/
def strSplitOnChar (s : String) (sep : Char) : List String :=
  (splitOnChar sep s.data).map String.mk

/-- Join fields with a separator, Python `sep.join(fields)`. -/
def joinWith (sep : String) : List String → String
  | [] => ""
  | [x] => x
  | x :: y :: ys => x ++ sep ++ joinWith sep (y :: ys)

/-- Python `str.split()` (no separator): split on whitespace runs, dropping
empty fields; the headers involved only contain spaces. -/
def pySplitWs (s : String) : List String :=
  (strSplitOnChar s ' ').filter (fun t => t ≠ "")

/-- Python `s.split(":", 1)` unpacked into two variables: `none` models the
`ValueError` raised when the separator does not occur. -/
def splitColon1 (s : String) : Option (String × String) :=
  match strSplitOnChar s ':' with
  | [] => none
  | [_] => none
  | u :: rest => some (u, joinWith ":" rest)

/-- Python `str.split("@")` unpacked into exactly two variables: `none`
models the `ValueError` raised when there are not exactly two fields. -/
def splitAt2 (s : String) : Option (String × String) :=
  match strSplitOnChar s '@' with
  | [u, d] => some (u, d)
  | _ => none

/-- Is the needle a contiguous substring of the haystack? -/
def listContainsSub (needle : List Char) : List Char → Bool
  | [] => needle.isEmpty
  | c :: rest => listBeginsWith needle (c :: rest) || listContainsSub needle rest

/-- Substring test, Python's `needle in hay`. -/
def containsSub (hay needle : String) : Bool :=
  listContainsSub needle.data hay.data

/-- A header value as falcon exposes it: `req.auth` is `None` when absent, and
Python treats the empty string as false in `if not req.auth`. -/
def headerVal (h : Option String) : Option String :=
  match h with
  | some s => if s = "" then none else some s
  | none => none

/-- Python set equality between `AUTHENTICATION_BACKENDS` (a `set` of strings,
modelled as a list of its elements) and a literal set. -/
def pySetEq (a b : List String) : Bool :=
  a.all (fun x => b.contains x) && b.all (fun x => a.contains x)

/-! ## Requests, outcomes and the external environment -/

/-- The parts of a falcon request that `auth.py` reads. -/
structure Request where
  /-- `req.auth`, the Authorization header (`None` when absent). -/
  auth : Option String
  /-- `req.user_agent`. -/
  userAgent : String
  /-- `req.get_param_as_bool("authenticate")`, read on the optional paths. -/
  authenticateParam : Bool
deriving DecidableEq, Repr

/-- Result of running one of the authentication wrappers: control passed to
the wrapped handler with `req.context["user"]` set (or unset, `none`), a
falcon HTTP error raised, or an uncaught Python exception. -/
inductive Outcome where
  | proceed (user : Option String)
  | httpError (code : Nat)
  | pyError (exn : String)
deriving DecidableEq, Repr

/-- External collaborators of `auth.py`: the Kerberos realm, the user store's
admin capability, PAM, the LDAP bind, and the GSSAPI negotiation step. -/
structure Env where
  /-- `const.DOMAIN`. -/
  domain : String
  /-- `User.is_admin()` for the named user (user store is external). -/
  isAdmin : String → Bool
  /-- `simplepam.authenticate(user, passwd, "sshd")`. -/
  pamOk : String → String → Bool
  /-- `conn.simple_bind_s(upn, passwd)`: `true` on success, `false` models
  `ldap.INVALID_CREDENTIALS` (server-down conditions are infrastructure
  failures outside this model). -/
  ldapOk : String → String → Bool
  /-- `context.step(b64decode(token))` followed by `str(context.initiator_name)`:
  the initiator name on success, `none` models a raised GSSAPI error. -/
  gssStep : String → Option String

/-! ## The three authentication backends of `auth.py` -/

/-- `kerberos_authenticate` from `certidude/auth.py`. -/
def kerberos_authenticate (env : Env) (optional : Bool) (req : Request) : Outcome :=
  match headerVal req.auth with
  | none =>
    if optional then .proceed none
    else .httpError 401
  | some auth =>
    if ¬ strBeginsWith auth "Negotiate " then .httpError 400
    else
      let token := String.join (pySplitWs auth).tail
      match b64decode token with
      | none => .httpError 400
      | some decoded =>
        match env.gssStep decoded with
        | none => .pyError "gssapi.GSSError"
        | some initiator =>
          match splitAt2 initiator with
          | none => .pyError "ValueError"
          | some (username, domain) =>
            if domain.toLower ≠ env.domain.toLower then .httpError 403
            else if strEndsWith username "$" ∧ optional then .proceed none
            else .proceed (some username)

/-- `ldap_authenticate` from `certidude/auth.py`.  The `TypeError` raised by
`b64decode` on a malformed token is not caught on this path. -/
def ldap_authenticate (env : Env) (optional : Bool) (req : Request) : Outcome :=
  if optional ∧ ¬ req.authenticateParam then .proceed none
  else
    match headerVal req.auth with
    | none => .httpError 401
    | some auth =>
      if ¬ strBeginsWith auth "Basic " then .httpError 400
      else
        let token := auth.drop 6
        match b64decode token with
        | none => .pyError "TypeError"
        | some decoded =>
          match splitColon1 decoded with
          | none => .pyError "ValueError"
          | some (user, passwd) =>
            if ¬ env.ldapOk user passwd then .httpError 401
            else .proceed (some user)

/-- `pam_authenticate` from `certidude/auth.py`.  As on the LDAP path, a
`b64decode` failure is not caught. -/
def pam_authenticate (env : Env) (optional : Bool) (req : Request) : Outcome :=
  if optional ∧ ¬ req.authenticateParam then .proceed none
  else
    match headerVal req.auth with
    | none => .httpError 401
    | some auth =>
      if ¬ strBeginsWith auth "Basic " then .httpError 400
      else
        let token := auth.drop 6
        match b64decode token with
        | none => .pyError "TypeError"
        | some decoded =>
          match splitColon1 decoded with
          | none => .pyError "ValueError"
          | some (user, passwd) =>
            if ¬ env.pamOk user passwd then .httpError 401
            else .proceed (some user)

/-! ## Backend dispatch (`wrapped` inside `authenticate`) -/

/-- Which authenticator `wrapped` selects. -/
inductive AuthPath where
  | kerberosPath
  | ldapPath
  | pamPath
  | notImplemented
deriving DecidableEq, Repr

/-- The dispatch logic of `wrapped` in `certidude/auth.py`:
mobile user agents fall back to LDAP basic auth when LDAP is enabled,
otherwise Kerberos wins, then the single-backend configurations, and any
other backend set raises `NotImplementedError`. -/
def dispatch (backends : List String) (userAgent : String) : AuthPath :=
  if backends.contains "ldap" ∧ (containsSub userAgent "Android" ∨ containsSub userAgent "iPhone")
  then .ldapPath
  else if backends.contains "kerberos" then .kerberosPath
  else if pySetEq backends ["pam"] then .pamPath
  else if pySetEq backends ["ldap"] then .ldapPath
  else .notImplemented

/-- `wrapped`: dispatch to the selected backend's authenticator. -/
def wrapped (env : Env) (backends : List String) (optional : Bool) (req : Request) : Outcome :=
  match dispatch backends req.userAgent with
  | .kerberosPath => kerberos_authenticate env optional req
  | .ldapPath => ldap_authenticate env optional req
  | .pamPath => pam_authenticate env optional req
  | .notImplemented => .pyError "NotImplementedError"

/-! ## `authorize_admin` and admin-only endpoints -/

/-- Result of a full endpoint invocation: an HTTP status, or an uncaught
Python exception. -/
inductive HttpResult where
  | status (code : Nat)
  | exn (e : String)
deriving DecidableEq, Repr

/-- The admin-only operations of the HTTP surface. -/
inductive AdminOp where
  | revoke
  | tagCreate
  | tagReplace
  | tagDelete
  | leaseRead
  | logRead
  | tokenIssue
deriving DecidableEq, Repr

/-- Modelled from the spec: the handlers behind the admin-only routes (revoke,
tag create/replace/delete, lease read, log read, token issuance) are not part
of the excerpt; per the spec's authorization matrix each of them succeeds with
200 once the caller is authenticated and admin-authorized. -/
def adminOpSuccess : AdminOp → Nat := fun _ => 200

/-- `authorize_admin` from `certidude/auth.py` applied to the handler of an
admin-only operation: `req.context.get("user").is_admin()` gates the handler;
a missing user would raise `AttributeError` (`None.is_admin()`). -/
def authorize_admin (env : Env) (user : Option String) (op : AdminOp) : HttpResult :=
  match user with
  | none => .exn "AttributeError"
  | some u =>
    if env.isAdmin u then .status (adminOpSuccess op)
    else .status 403

/-- An admin-only endpoint: `login_required` (`authenticate()`, i.e.
`optional = false`) composed with `authorize_admin` around the operation's
handler. -/
def adminEndpoint (env : Env) (backends : List String) (req : Request) (op : AdminOp) : HttpResult :=
  match wrapped env backends false req with
  | .proceed user => authorize_admin env user op
  | .httpError c => .status c
  | .pyError e => .exn e

/-! ## Signing pipeline (modelled from the spec)

The pipeline implementation (`certidude/api.py`) is not part of the excerpt;
only `tests/test_cli.py` exercises it.  The definitions below are modelled
from the spec's §4.1 contract. -/

/-- A parsed certificate signing request: the CN it names and its key
material (identical CSR bytes have identical key material). -/
structure Csr where
  cn : String
  pubkey : Nat
deriving DecidableEq, Repr

/-- The pending-request store: at most one pending request per CN. -/
structure CaState where
  pending : List (String × Csr)
deriving DecidableEq, Repr

/-- Modelled from the spec: `submit(csr_bytes, content_type, query_options)`
of the Signing Pipeline (implementation not in the excerpt).  Rejects a
content type other than the CSR media type with 415; an identical resubmission
for a pending CN is an idempotent 202; a different key for a pending CN is a
409 conflict; otherwise the request is stored and 202 returned. -/
def submit (st : CaState) (contentType : String) (csr : Csr) : Nat × CaState :=
  if contentType ≠ "application/pkcs10" then (415, st)
  else
    match st.pending.find? (fun p => p.fst = csr.cn) with
    | some existing =>
      if existing.snd.pubkey = csr.pubkey then (202, st)
      else (409, st)
    | none => (202, { pending := (csr.cn, csr) :: st.pending })

/-- Number of pending requests stored for a CN. -/
def pendingCount (st : CaState) (cn : String) : Nat :=
  (st.pending.filter (fun p => p.fst = cn)).length

/-- Modelled from the spec: fetching a request or signed certificate by CN
(handler not in the excerpt) with content negotiation — JSON or PEM on a
stored CN, 404 on an unknown CN, 415 on any other requested representation. -/
def fetchByCn (present : Bool) (accept : String) : Nat × Option String :=
  if ¬ present then (404, none)
  else if accept = "application/json" then (200, some "application/json")
  else if accept = "application/x-pem-file" then (200, some "application/x-pem-file")
  else (415, none)

/-! ## Enrollment token protocol (modelled from the spec) -/

/-- Deployment-wide bundle format, `config.BUNDLE_FORMAT`. -/
inductive BundleFormat where
  | ovpn
  | p12
  | pem
deriving DecidableEq, Repr

/-- Server configuration read by the token routes. -/
structure TokenConfig where
  /-- The server secret keyed into the token checksum. -/
  secret : String
  /-- Width of the validity window, seconds. -/
  lifetime : Nat
  /-- `config.USER_ENROLLMENT_ALLOWED`. -/
  userEnrollmentAllowed : Bool
  /-- `config.BUNDLE_FORMAT`. -/
  bundleFormat : BundleFormat

/-- The query parameters of a token redemption, `u=<user>&t=<ts>&c=<checksum>`. -/
structure TokenQuery where
  u : String
  t : Nat
  c : String
deriving DecidableEq, Repr

/-- A rendered credential bundle. -/
structure Bundle where
  format : BundleFormat
  user : String
deriving DecidableEq, Repr

/-- Outcome of a token redemption. -/
inductive RedeemResult where
  | bundle (b : Bundle)
  | forbidden
deriving DecidableEq, Repr

/-- Content type of a rendered bundle, as observed by the test. -/
def bundleContentType : BundleFormat → String
  | .ovpn => "application/x-openvpn"
  | .p12 => "application/x-pkcs12"
  | .pem => "application/x-pem-file"

/-- Modelled from the spec: `redeem(token_string, query_params, requesting_agent)`
of the Enrollment Token Protocol (implementation not in the excerpt).  The
checksum is recomputed with the keyed MAC (`mac`, an external cryptographic
primitive) over the claimed `(user, time)` pair and the server secret; a
mismatch or an out-of-window timestamp is `Forbidden`, otherwise a fresh
bundle is rendered in the deployment-wide configured format.  The requesting
agent may steer soft bundle-variant heuristics but never the format. -/
def redeem (mac : String → Nat → String → String) (cfg : TokenConfig)
    (tok : TokenQuery) (_agent : String) (now : Nat) : RedeemResult :=
  if tok.c ≠ mac tok.u tok.t cfg.secret then .forbidden
  else if ¬ (tok.t ≤ now ∧ now < tok.t + cfg.lifetime) then .forbidden
  else .bundle { format := cfg.bundleFormat, user := tok.u }

/-- Modelled from the spec: the `POST /api/token/` route (handler not in the
excerpt) — 404 while user enrollment is disabled, otherwise the admin-only
authorization matrix guards token issuance. -/
def tokenIssueEndpoint (env : Env) (backends : List String) (cfg : TokenConfig)
    (req : Request) : HttpResult :=
  if ¬ cfg.userEnrollmentAllowed then .status 404
  else adminEndpoint env backends req .tokenIssue

/-! ## Certificate issuance (modelled from the spec) -/

/-- Lower bound of the serial number range asserted by the test. -/
def SERIAL_MIN : Nat := 0x100000000000000000000000000000000000000

/-- Upper bound of the serial number range asserted by the test. -/
def SERIAL_MAX : Nat := 0xfffffffffffffffffffffffffffffffffffffff

/-- Certificate lifetime in days (about twenty years; the test requires more
than 7000 days). -/
def CERT_LIFETIME_DAYS : Nat := 7305

/-- An issued certificate as the claims observe it. -/
structure Cert where
  serial : Nat
  cn : String
  notBefore : Nat
  notAfter : Nat
deriving DecidableEq, Repr

/-- Modelled from the spec: certificate issuance (Signer Channel, not in the
excerpt) — the serial is drawn from the broad fixed range via an external
random source `rand`, `not_before` is backdated one day and `not_after` set
years ahead so that `not_before < now < not_after`. -/
def issueCert (rand : Nat) (now : Nat) (cn : String) : Cert :=
  { serial := SERIAL_MIN + rand % (SERIAL_MAX - SERIAL_MIN + 1)
  , cn := cn
  , notBefore := now - 86400
  , notAfter := now + CERT_LIFETIME_DAYS * 86400 }

/-! ## Helper lemmas -/

theorem contains_true_iff (l : List String) (x : String) :
    l.contains x = true ↔ x ∈ l := by
  constructor
  · intro h; simpa [List.contains] using List.elem_iff.mp h
  · intro h; simpa [List.contains] using List.elem_iff.mpr h

theorem contains_false_iff (l : List String) (x : String) :
    l.contains x = false ↔ x ∉ l := by
  rw [← Bool.not_eq_true, not_iff_not]
  exact contains_true_iff l x

theorem pySetEq_singleton {a : List String} {s : String} (h : pySetEq a [s] = true) :
    (∀ x ∈ a, x = s) ∧ s ∈ a := by
  rcases Bool.and_eq_true .. |>.mp h with ⟨h₁, h₂⟩
  constructor
  · intro x hx
    have := List.all_eq_true.mp h₁ x hx
    have := (contains_true_iff [s] x).mp this
    simpa using this
  · have := List.all_eq_true.mp h₂ s (by simp)
    exact (contains_true_iff a s).mp this

theorem contains_false_of_singleton {a : List String} {s : String} (x : String)
    (h : pySetEq a [s] = true) (hx : x ≠ s) : a.contains x = false := by
  rcases pySetEq_singleton h with ⟨hall, _⟩
  by_contra hc
  have : a.contains x = true := by
    cases hcc : a.contains x with
    | false => exact absurd hcc hc
    | true => rfl
  exact hx (hall x ((contains_true_iff a x).mp this))

theorem pySetEq_false_of_singleton {a : List String} {s : String} (t : String)
    (h : pySetEq a [s] = true) (hst : s ≠ t) : pySetEq a [t] = false := by
  rcases pySetEq_singleton h with ⟨hall, hmem⟩
  by_contra hc
  have htrue : pySetEq a [t] = true := by
    cases hcc : pySetEq a [t] with
    | false => exact absurd hcc hc
    | true => rfl
  rcases pySetEq_singleton htrue with ⟨hall', _⟩
  exact hst (hall' s hmem)

/-! ## Claim theorems -/

/-- C2: if the checksum in a redeemed token does not equal the keyed hash
recomputed from the token's claimed (user, time) pair and the server secret,
redemption is rejected with Forbidden and no bundle is produced. -/
theorem token_checksum_mismatch_forbidden
    (mac : String → Nat → String → String) (cfg : TokenConfig)
    (tok : TokenQuery) (agent : String) (now : Nat)
    (h : tok.c ≠ mac tok.u tok.t cfg.secret) :
    redeem mac cfg tok agent now = .forbidden := by
  simp [redeem, h]

/-- Concrete MAC standing in for the external keyed-hash primitive in
witnesses. -/
def macDemo (u : String) (t : Nat) (s : String) : String :=
  u ++ s ++ (if t % 2 = 0 then "0" else "1")

/-- Concrete token-route configuration for witnesses. -/
def cfgDemo : TokenConfig :=
  { secret := "sekret", lifetime := 100, userEnrollmentAllowed := true
  , bundleFormat := .ovpn }

theorem token_checksum_mismatch_forbidden_witness :
    redeem macDemo cfgDemo ⟨"userbot", 100, "bad"⟩ "UA" 100 = .forbidden :=
  token_checksum_mismatch_forbidden macDemo cfgDemo ⟨"userbot", 100, "bad"⟩ "UA" 100
    (by decide)

/-- C3: submitting the identical CSR twice for a CN with no pending request
yields 202 both times, the second submission changes nothing, and exactly one
pending request is stored for that CN. -/
theorem idempotent_resubmission (st : CaState) (csr : Csr)
    (h : st.pending.find? (fun p => p.fst = csr.cn) = none) :
    (submit st "application/pkcs10" csr).1 = 202
    ∧ (submit (submit st "application/pkcs10" csr).2 "application/pkcs10" csr).1 = 202
    ∧ (submit (submit st "application/pkcs10" csr).2 "application/pkcs10" csr).2
        = (submit st "application/pkcs10" csr).2
    ∧ pendingCount (submit st "application/pkcs10" csr).2 csr.cn = 1 := by
  have hfilter : st.pending.filter (fun p => decide (p.fst = csr.cn)) = [] := by
    rw [List.filter_eq_nil_iff]
    intro a ha
    have := List.find?_eq_none.mp h a ha
    simpa using this
  refine ⟨?_, ?_, ?_, ?_⟩ <;>
    simp [submit, h, List.find?_cons, pendingCount, hfilter]

theorem idempotent_resubmission_witness :
    (submit ⟨[]⟩ "application/pkcs10" ⟨"test", 7⟩).1 = 202
    ∧ (submit (submit ⟨[]⟩ "application/pkcs10" ⟨"test", 7⟩).2 "application/pkcs10" ⟨"test", 7⟩).1 = 202
    ∧ (submit (submit ⟨[]⟩ "application/pkcs10" ⟨"test", 7⟩).2 "application/pkcs10" ⟨"test", 7⟩).2
        = (submit ⟨[]⟩ "application/pkcs10" ⟨"test", 7⟩).2
    ∧ pendingCount (submit ⟨[]⟩ "application/pkcs10" ⟨"test", 7⟩).2 "test" = 1 :=
  idempotent_resubmission ⟨[]⟩ ⟨"test", 7⟩ (by decide)

/-- C4: submitting a CSR with a different keypair for a CN that already has a
pending request yields Conflict 409 and leaves the store unchanged. -/
theorem conflicting_key_resubmission (st : CaState) (entry : String × Csr) (csr : Csr)
    (hfind : st.pending.find? (fun p => p.fst = csr.cn) = some entry)
    (hkey : entry.snd.pubkey ≠ csr.pubkey) :
    submit st "application/pkcs10" csr = (409, st) := by
  simp [submit, hfind, hkey]

theorem conflicting_key_resubmission_witness :
    submit ⟨[("test", ⟨"test", 7⟩)]⟩ "application/pkcs10" ⟨"test", 8⟩
      = (409, ⟨[("test", ⟨"test", 7⟩)]⟩) :=
  conflicting_key_resubmission ⟨[("test", ⟨"test", 7⟩)]⟩ ("test", ⟨"test", 7⟩) ⟨"test", 8⟩
    (by decide) (by decide)

/-- C5: fetching a stored request or signed certificate negotiates JSON and
PEM representations with matching content types, any other Accept value gives
415, and a CSR submission with an unrecognized content type gives 415. -/
theorem content_negotiation (accept : String) (st : CaState) (ct : String) (csr : Csr)
    (haccept₁ : accept ≠ "application/json") (haccept₂ : accept ≠ "application/x-pem-file")
    (hct : ct ≠ "application/pkcs10") :
    fetchByCn true "application/json" = (200, some "application/json")
    ∧ fetchByCn true "application/x-pem-file" = (200, some "application/x-pem-file")
    ∧ (fetchByCn true accept).1 = 415
    ∧ (submit st ct csr).1 = 415 := by
  refine ⟨by simp [fetchByCn], by simp [fetchByCn], ?_, ?_⟩
  · simp [fetchByCn, haccept₁, haccept₂]
  · simp [submit, hct]

theorem content_negotiation_witness :
    fetchByCn true "application/json" = (200, some "application/json")
    ∧ fetchByCn true "application/x-pem-file" = (200, some "application/x-pem-file")
    ∧ (fetchByCn true "text/plain").1 = 415
    ∧ (submit ⟨[]⟩ "text/html" ⟨"test", 7⟩).1 = 415 :=
  content_negotiation "text/plain" ⟨[]⟩ "text/html" ⟨"test", 7⟩
    (by decide) (by decide) (by decide)

/-- C6: a structurally valid token inside the expiry window can be redeemed at
any number of in-window instants (replay allowed), and each redemption takes
its bundle format from the server-wide configuration at redemption time, not
from any per-request parameter. -/
theorem token_replay_and_bundle_format
    (mac : String → Nat → String → String) (cfg : TokenConfig) (tok : TokenQuery)
    (agent agent' : String) (now now' : Nat) (f : BundleFormat)
    (hc : tok.c = mac tok.u tok.t cfg.secret)
    (h1 : tok.t ≤ now) (h2 : now < tok.t + cfg.lifetime)
    (h1' : tok.t ≤ now') (h2' : now' < tok.t + cfg.lifetime) :
    redeem mac cfg tok agent now = .bundle ⟨cfg.bundleFormat, tok.u⟩
    ∧ redeem mac { cfg with bundleFormat := f } tok agent' now'
        = .bundle ⟨f, tok.u⟩ := by
  constructor <;> simp [redeem, hc, h1, h2, h1', h2']

theorem token_replay_and_bundle_format_witness :
    redeem macDemo cfgDemo ⟨"userbot", 100, "userbotsekret0"⟩ "Fedora" 120
      = .bundle ⟨.ovpn, "userbot"⟩
    ∧ redeem macDemo { cfgDemo with bundleFormat := .p12 }
        ⟨"userbot", 100, "userbotsekret0"⟩ "Unknown" 150
      = .bundle ⟨.p12, "userbot"⟩ :=
  token_replay_and_bundle_format macDemo cfgDemo ⟨"userbot", 100, "userbotsekret0"⟩
    "Fedora" "Unknown" 120 150 .p12 (by decide) (by decide) (by decide) (by decide) (by decide)

/-- C9: every issued certificate's serial number lies in the fixed broad
range, its validity window satisfies not_before < now < not_after, and the
window spans years. -/
theorem serial_and_validity (rand now : Nat) (cn : String) (h : 86400 ≤ now) :
    SERIAL_MIN ≤ (issueCert rand now cn).serial
    ∧ (issueCert rand now cn).serial ≤ SERIAL_MAX
    ∧ (issueCert rand now cn).notBefore < now
    ∧ now < (issueCert rand now cn).notAfter
    ∧ 2 * 365 * 86400 ≤ (issueCert rand now cn).notAfter - (issueCert rand now cn).notBefore := by
  have hmin : SERIAL_MIN ≤ SERIAL_MAX := by norm_num [SERIAL_MIN, SERIAL_MAX]
  refine ⟨Nat.le_add_right _ _, ?_, ?_, ?_, ?_⟩
  · have hlt : rand % (SERIAL_MAX - SERIAL_MIN + 1) < SERIAL_MAX - SERIAL_MIN + 1 :=
      Nat.mod_lt _ (Nat.succ_pos _)
    have hle : rand % (SERIAL_MAX - SERIAL_MIN + 1) ≤ SERIAL_MAX - SERIAL_MIN :=
      Nat.lt_succ_iff.mp hlt
    calc SERIAL_MIN + rand % (SERIAL_MAX - SERIAL_MIN + 1)
        ≤ SERIAL_MIN + (SERIAL_MAX - SERIAL_MIN) := Nat.add_le_add_left hle _
      _ = SERIAL_MAX := Nat.add_sub_cancel' hmin
  · exact Nat.sub_lt (Nat.lt_of_lt_of_le (by norm_num) h) (by norm_num)
  · simpa [issueCert] using
      Nat.lt_add_of_pos_right (n := now) (k := CERT_LIFETIME_DAYS * 86400) (by norm_num [CERT_LIFETIME_DAYS])
  · show 2 * 365 * 86400 ≤ now + CERT_LIFETIME_DAYS * 86400 - (now - 86400)
    have : CERT_LIFETIME_DAYS = 7305 := rfl
    omega

theorem serial_and_validity_witness :
    SERIAL_MIN ≤ (issueCert 0 100000 "test").serial
    ∧ (issueCert 0 100000 "test").serial ≤ SERIAL_MAX
    ∧ (issueCert 0 100000 "test").notBefore < 100000
    ∧ 100000 < (issueCert 0 100000 "test").notAfter
    ∧ 2 * 365 * 86400 ≤ (issueCert 0 100000 "test").notAfter - (issueCert 0 100000 "test").notBefore :=
  serial_and_validity 0 100000 "test" (by norm_num)

theorem pySetEq_false_of_not_contains {a : List String} {s : String}
    (h : a.contains s = false) : pySetEq a [s] = false := by
  rw [← Bool.not_eq_true]
  intro hc
  have hmem := (contains_true_iff a s).mpr (pySetEq_singleton hc).2
  rw [h] at hmem
  exact absurd hmem (by decide)

/-- The admin authorization matrix shared by every admin-only route:
anonymous yields 401, authenticated non-admin yields 403, authenticated admin
yields the operation's success code 200. -/
theorem adminEndpoint_matrix (env : Env) (backends : List String)
    (req : Request) (op : AdminOp) :
    (req.auth = none → dispatch backends req.userAgent ≠ .notImplemented →
       adminEndpoint env backends req op = .status 401)
    ∧ (∀ u, wrapped env backends false req = .proceed (some u) → env.isAdmin u = false →
       adminEndpoint env backends req op = .status 403)
    ∧ (∀ u, wrapped env backends false req = .proceed (some u) → env.isAdmin u = true →
       adminEndpoint env backends req op = .status 200) := by
  refine ⟨?_, ?_, ?_⟩
  · intro hauth hni
    have hw : wrapped env backends false req = .httpError 401 := by
      cases hd : dispatch backends req.userAgent with
      | kerberosPath => simp [wrapped, hd, kerberos_authenticate, headerVal, hauth]
      | ldapPath => simp [wrapped, hd, ldap_authenticate, headerVal, hauth]
      | pamPath => simp [wrapped, hd, pam_authenticate, headerVal, hauth]
      | notImplemented => exact absurd hd hni
    simp [adminEndpoint, hw]
  · intro u hw ha
    simp [adminEndpoint, hw, authorize_admin, ha]
  · intro u hw ha
    simp [adminEndpoint, hw, authorize_admin, ha, adminOpSuccess]

/-- C1: for every admin-only operation (revoke, tag create/replace/delete,
lease read, log read, token issuance), an anonymous request yields 401, an
authenticated non-admin principal yields 403, and an authenticated admin
principal succeeds with 200. -/
theorem admin_route_authorization_matrix (env : Env) (backends : List String)
    (req : Request) (op : AdminOp) :
    (req.auth = none → dispatch backends req.userAgent ≠ .notImplemented →
       adminEndpoint env backends req op = .status 401)
    ∧ (∀ u, wrapped env backends false req = .proceed (some u) → env.isAdmin u = false →
       adminEndpoint env backends req op = .status 403)
    ∧ (∀ u, wrapped env backends false req = .proceed (some u) → env.isAdmin u = true →
       adminEndpoint env backends req op = .status 200) :=
  adminEndpoint_matrix env backends req op

/-- Concrete environment for witnesses: a PAM deployment with the regular
user `userbot` and the administrator `adminbot`, both with password `bot`,
mirroring the accounts of the end-to-end test. -/
def env0 : Env :=
  { domain := "example.lan"
  , isAdmin := fun u => u == "adminbot"
  , pamOk := fun u p => (u == "userbot" || u == "adminbot") && p == "bot"
  , ldapOk := fun _ _ => false
  , gssStep := fun _ => none }

/-- An anonymous request. -/
def reqAnon : Request :=
  { auth := none, userAgent := "Mozilla/5.0 Fedora", authenticateParam := false }

/-- A request with the test's `usertoken` basic credentials. -/
def reqUser : Request :=
  { auth := some "Basic dXNlcmJvdDpib3Q=", userAgent := "Mozilla/5.0 Fedora"
  , authenticateParam := false }

/-- A request with the test's `admintoken` basic credentials. -/
def reqAdmin : Request :=
  { auth := some "Basic YWRtaW5ib3Q6Ym90", userAgent := "Mozilla/5.0 Fedora"
  , authenticateParam := false }

theorem admin_route_authorization_matrix_witness :
    adminEndpoint env0 ["pam"] reqAnon .revoke = .status 401
    ∧ adminEndpoint env0 ["pam"] reqUser .revoke = .status 403
    ∧ adminEndpoint env0 ["pam"] reqAdmin .revoke = .status 200 :=
  ⟨(admin_route_authorization_matrix env0 ["pam"] reqAnon .revoke).1 rfl (by decide),
   (admin_route_authorization_matrix env0 ["pam"] reqUser .revoke).2.1 "userbot"
     (by decide) (by decide),
   (admin_route_authorization_matrix env0 ["pam"] reqAdmin .revoke).2.2 "adminbot"
     (by decide) (by decide)⟩

/-- C8: while user enrollment is disabled every POST to /api/token/ yields
404; once enabled, the 401/403/200 admin matrix applies to the route. -/
theorem token_issue_route (env : Env) (backends : List String)
    (cfg : TokenConfig) (req : Request) :
    (cfg.userEnrollmentAllowed = false → tokenIssueEndpoint env backends cfg req = .status 404)
    ∧ (cfg.userEnrollmentAllowed = true →
        (req.auth = none → dispatch backends req.userAgent ≠ .notImplemented →
           tokenIssueEndpoint env backends cfg req = .status 401)
        ∧ (∀ u, wrapped env backends false req = .proceed (some u) → env.isAdmin u = false →
           tokenIssueEndpoint env backends cfg req = .status 403)
        ∧ (∀ u, wrapped env backends false req = .proceed (some u) → env.isAdmin u = true →
           tokenIssueEndpoint env backends cfg req = .status 200)) := by
  constructor
  · intro h
    simp [tokenIssueEndpoint, h]
  · intro h
    refine ⟨fun h1 h2 => ?_, fun u h1 h2 => ?_, fun u h1 h2 => ?_⟩
    · have hm := (adminEndpoint_matrix env backends req .tokenIssue).1 h1 h2
      simp [tokenIssueEndpoint, h, hm]
    · have hm := (adminEndpoint_matrix env backends req .tokenIssue).2.1 u h1 h2
      simp [tokenIssueEndpoint, h, hm]
    · have hm := (adminEndpoint_matrix env backends req .tokenIssue).2.2 u h1 h2
      simp [tokenIssueEndpoint, h, hm]

/-- The demo configuration with user enrollment switched off. -/
def cfgDisabled : TokenConfig :=
  { cfgDemo with userEnrollmentAllowed := false }

theorem token_issue_route_witness :
    tokenIssueEndpoint env0 ["pam"] cfgDisabled reqAdmin = .status 404
    ∧ tokenIssueEndpoint env0 ["pam"] cfgDemo reqAnon = .status 401
    ∧ tokenIssueEndpoint env0 ["pam"] cfgDemo reqUser = .status 403
    ∧ tokenIssueEndpoint env0 ["pam"] cfgDemo reqAdmin = .status 200 :=
  ⟨(token_issue_route env0 ["pam"] cfgDisabled reqAdmin).1 rfl,
   ((token_issue_route env0 ["pam"] cfgDemo reqAnon).2 rfl).1 rfl (by decide),
   ((token_issue_route env0 ["pam"] cfgDemo reqUser).2 rfl).2.1 "userbot"
     (by decide) (by decide),
   ((token_issue_route env0 ["pam"] cfgDemo reqAdmin).2 rfl).2.2 "adminbot"
     (by decide) (by decide)⟩

/-- C10: with both LDAP and Kerberos enabled, Android/iPhone user agents are
authenticated over LDAP basic auth and all other agents over Kerberos; a
single configured backend is always used; a backend set naming none of the
recognized backends raises `NotImplementedError` instead of authenticating. -/
theorem backend_dispatch (backends : List String) (ua : String) :
    ((backends.contains "ldap" = true ∧ backends.contains "kerberos" = true) →
      ((containsSub ua "Android" = true ∨ containsSub ua "iPhone" = true) →
          dispatch backends ua = .ldapPath)
      ∧ (¬ (containsSub ua "Android" = true ∨ containsSub ua "iPhone" = true) →
          dispatch backends ua = .kerberosPath))
    ∧ (pySetEq backends ["kerberos"] = true → dispatch backends ua = .kerberosPath)
    ∧ (pySetEq backends ["ldap"] = true → dispatch backends ua = .ldapPath)
    ∧ (pySetEq backends ["pam"] = true → dispatch backends ua = .pamPath)
    ∧ ((backends.contains "ldap" = false ∧ backends.contains "kerberos" = false
        ∧ backends.contains "pam" = false) →
          dispatch backends ua = .notImplemented) := by
  refine ⟨fun hb => ⟨fun hm => ?_, fun hm => ?_⟩, fun h => ?_, fun h => ?_, fun h => ?_, fun h => ?_⟩
  · have h1 := (contains_true_iff backends "ldap").mp hb.1
    simp [dispatch, h1, hm]
  · rw [not_or] at hm
    have h1 := (contains_true_iff backends "ldap").mp hb.1
    have h2 := (contains_true_iff backends "kerberos").mp hb.2
    simp [dispatch, h1, h2, hm.1, hm.2]
  · have hld := (contains_false_iff backends "ldap").mp
      (contains_false_of_singleton "ldap" h (by decide))
    have hk := (pySetEq_singleton h).2
    simp [dispatch, hld, hk]
  · have hk := (contains_false_iff backends "kerberos").mp
      (contains_false_of_singleton "kerberos" h (by decide))
    have hld := (pySetEq_singleton h).2
    have hpam := pySetEq_false_of_singleton "pam" h (by decide)
    by_cases hmA : containsSub ua "Android" = true
    · simp [dispatch, hld, hmA]
    · by_cases hmI : containsSub ua "iPhone" = true
      · simp [dispatch, hld, hmI]
      · simp [dispatch, hld, hmA, hmI, hk, hpam, h]
  · have hld := (contains_false_iff backends "ldap").mp
      (contains_false_of_singleton "ldap" h (by decide))
    have hk := (contains_false_iff backends "kerberos").mp
      (contains_false_of_singleton "kerberos" h (by decide))
    simp [dispatch, hld, hk, h]
  · have hpam := pySetEq_false_of_not_contains h.2.2
    have hldeq := pySetEq_false_of_not_contains h.1
    have hld := (contains_false_iff backends "ldap").mp h.1
    have hk := (contains_false_iff backends "kerberos").mp h.2.1
    simp [dispatch, hld, hk, hpam, hldeq]

theorem backend_dispatch_witness :
    dispatch ["ldap", "kerberos"] "Linux; Android 7" = .ldapPath
    ∧ dispatch ["ldap", "kerberos"] "Mozilla/5.0 Fedora" = .kerberosPath
    ∧ dispatch ["kerberos"] "Linux; Android 7" = .kerberosPath
    ∧ dispatch ["ldap"] "Mozilla/5.0 Fedora" = .ldapPath
    ∧ dispatch ["pam"] "Linux; Android 7" = .pamPath
    ∧ dispatch ["bogus"] "Mozilla/5.0 Fedora" = .notImplemented :=
  ⟨((backend_dispatch ["ldap", "kerberos"] "Linux; Android 7").1 (by decide)).1 (by decide),
   ((backend_dispatch ["ldap", "kerberos"] "Mozilla/5.0 Fedora").1 (by decide)).2 (by decide),
   (backend_dispatch ["kerberos"] "Linux; Android 7").2.1 (by decide),
   (backend_dispatch ["ldap"] "Mozilla/5.0 Fedora").2.2.1 (by decide),
   (backend_dispatch ["pam"] "Linux; Android 7").2.2.2.1 (by decide),
   (backend_dispatch ["bogus"] "Mozilla/5.0 Fedora").2.2.2.2 (by decide)⟩

/-- C7 (amended): an Authorization header that does not begin with the active
backend's scheme yields BadRequest 400 in all three backends; a token that
fails base64 decoding yields 400 on the Kerberos path, where the `TypeError`
is caught, but propagates as an uncaught exception on the LDAP and PAM
paths. -/
theorem malformed_authorization_header (env : Env) (req : Request) (auth : String)
    (hauth : req.auth = some auth) (hne : auth ≠ "") :
    (¬ strBeginsWith auth "Negotiate " = true →
        kerberos_authenticate env false req = .httpError 400)
    ∧ (¬ strBeginsWith auth "Basic " = true →
        ldap_authenticate env false req = .httpError 400)
    ∧ (¬ strBeginsWith auth "Basic " = true →
        pam_authenticate env false req = .httpError 400)
    ∧ (strBeginsWith auth "Negotiate " = true →
        b64decode (String.join (pySplitWs auth).tail) = none →
        kerberos_authenticate env false req = .httpError 400)
    ∧ (strBeginsWith auth "Basic " = true → b64decode (auth.drop 6) = none →
        ldap_authenticate env false req = .pyError "TypeError")
    ∧ (strBeginsWith auth "Basic " = true → b64decode (auth.drop 6) = none →
        pam_authenticate env false req = .pyError "TypeError") := by
  refine ⟨fun h => ?_, fun h => ?_, fun h => ?_,
          fun h hb => ?_, fun h hb => ?_, fun h hb => ?_⟩
  · simp [kerberos_authenticate, headerVal, hauth, hne, h]
  · simp [ldap_authenticate, headerVal, hauth, hne, h]
  · simp [pam_authenticate, headerVal, hauth, hne, h]
  · simp [kerberos_authenticate, headerVal, hauth, hne, h, hb]
  · simp [ldap_authenticate, headerVal, hauth, hne, h, hb]
  · simp [pam_authenticate, headerVal, hauth, hne, h, hb]

/-- A request whose Authorization header matches no backend's scheme. -/
def reqBogus : Request :=
  { auth := some "Bogus abc", userAgent := "Mozilla/5.0 Fedora"
  , authenticateParam := false }

/-- A Negotiate header whose token is not decodable base64. -/
def reqNegBad : Request :=
  { auth := some "Negotiate !x", userAgent := "Mozilla/5.0 Fedora"
  , authenticateParam := false }

/-- A Basic header whose token is not decodable base64. -/
def reqBadB64 : Request :=
  { auth := some "Basic !x", userAgent := "Mozilla/5.0 Fedora"
  , authenticateParam := false }

theorem malformed_authorization_header_witness :
    kerberos_authenticate env0 false reqBogus = .httpError 400
    ∧ ldap_authenticate env0 false reqBogus = .httpError 400
    ∧ pam_authenticate env0 false reqBogus = .httpError 400
    ∧ kerberos_authenticate env0 false reqNegBad = .httpError 400
    ∧ ldap_authenticate env0 false reqBadB64 = .pyError "TypeError"
    ∧ pam_authenticate env0 false reqBadB64 = .pyError "TypeError" :=
  ⟨(malformed_authorization_header env0 reqBogus "Bogus abc" rfl (by decide)).1 (by decide),
   (malformed_authorization_header env0 reqBogus "Bogus abc" rfl (by decide)).2.1 (by decide),
   (malformed_authorization_header env0 reqBogus "Bogus abc" rfl (by decide)).2.2.1 (by decide),
   (malformed_authorization_header env0 reqNegBad "Negotiate !x" rfl (by decide)).2.2.2.1
     (by decide) (by decide),
   (malformed_authorization_header env0 reqBadB64 "Basic !x" rfl (by decide)).2.2.2.2.1
     (by decide) (by decide),
   (malformed_authorization_header env0 reqBadB64 "Basic !x" rfl (by decide)).2.2.2.2.2
     (by decide) (by decide)⟩

/-- C7 counterexample: with the PAM backend active, a Basic Authorization
header whose token fails base64 decoding does not produce BadRequest 400 —
the decoding error escapes as an uncaught `TypeError`. -/
theorem malformed_token_counterexample :
    b64decode "!x" = none
    ∧ wrapped env0 ["pam"] false reqBadB64 = .pyError "TypeError"
    ∧ ¬ wrapped env0 ["pam"] false reqBadB64 = .httpError 400 :=
  ⟨by decide, by decide, by decide⟩

end Certidude
